import Mathlib

/-!
# I_Love_PDF front end: `Frontend/js/script.js`

A shallow embedding of the script's own logic: the message banners, the
single-file intake, the merge page (intake and drag reordering) and the
credential modal that stands between a finished artifact and its download.

Conventions of the embedding

* A tool page is modelled: every element the script looks up by id exists, so
  the guards `if (messageArea)`, `if (downloadArea)` pass.
* The class `hidden` of an element is a boolean field, as is the class
  `visible` of the modal and the `disabled` property of a button.
* A handler is a function on the page state, and a command is one execution of
  a handler.  Whether the browser delivers a click to a control that is hidden
  or disabled depends on markup and style sheets, which are not part of the
  script; the handlers themselves are modelled exactly as written.
* Strings are sequences of Unicode characters.  The script's regular
  expressions have no `u` flag and see UTF-16 code units; the two views agree
  on every character of the Basic Multilingual Plane.
-/

namespace ILovePDF

/-! ## Message banners (`showMessage`, `showDownload`, `hideAllMessages`) -/

/-- The two banners of a page: `#message-area` and `#download-area`. -/
structure Banners where
  /-- `messageArea.textContent` -/
  messageText : String
  /-- `messageArea.className` is `message-box message-error` (else `message-box message-info`) -/
  messageIsError : Bool
  /-- `messageArea` carries the class `hidden` -/
  messageHidden : Bool
  /-- the string last assigned to `downloadArea.innerHTML` (line 21); the browser
  parses it to build the banner, and that parse is not modelled -/
  downloadHTML : String
  /-- `downloadArea` carries the class `hidden` -/
  downloadHidden : Bool
  deriving DecidableEq, Repr

/-- The second argument of `showMessage`: the string `"error"` or anything else. -/
inductive MessageType where
  | info
  | error
  deriving DecidableEq, Repr

/-- `showMessage(message, type)`, lines 2-15. -/
def showMessage (b : Banners) (message : String) (type : MessageType) : Banners :=
  { b with
    messageText := message
    messageIsError := (type == MessageType.error)
    messageHidden := false
    downloadHidden := true }

/-- The template literal of line 21: the file name and the reference are
inserted as they are, without escaping. -/
def downloadMarkup (fileName blobUrl : String) : String :=
  "<p>Your file is ready: <a href=\"" ++ blobUrl ++ "\" download=\"" ++ fileName ++
    "\">Download " ++ fileName ++ "</a></p>"

/-- `showDownload(fileName, blobUrl)`, lines 17-27; the assignment to
`innerHTML` is recorded as the string assigned. -/
def showDownload (b : Banners) (fileName blobUrl : String) : Banners :=
  { b with
    downloadHTML := downloadMarkup fileName blobUrl
    downloadHidden := false
    messageHidden := true }

/-- `hideAllMessages()`, lines 29-34. -/
def hideAllMessages (b : Banners) : Banners :=
  { b with messageHidden := true, downloadHidden := true }

/-! ## Regular expressions of the modal (lines 660-664)

The two patterns are anchored by `^` and `$` and have no flags, so
`regex.test(s)` is a match of the whole string from position 0.  Each piece
of a pattern is a matcher in continuation-passing style: it consumes a prefix
of the input and hands the remainder to the matcher of the rest of the
pattern; alternatives are tried in turn, as a backtracking engine does. -/

/-- Code points matched by `\s` (and removed by `String.prototype.trim`):
white space and line terminators of ECMAScript. -/
def isWhiteSpace (c : Char) : Bool :=
  c.toNat == 0x09 || c.toNat == 0x0A || c.toNat == 0x0B || c.toNat == 0x0C ||
  c.toNat == 0x0D || c.toNat == 0x20 || c.toNat == 0xA0 || c.toNat == 0x1680 ||
  (0x2000 ≤ c.toNat && c.toNat ≤ 0x200A) || c.toNat == 0x2028 || c.toNat == 0x2029 ||
  c.toNat == 0x202F || c.toNat == 0x205F || c.toNat == 0x3000 || c.toNat == 0xFEFF

/-- Line terminators: the characters that `.` does not match. -/
def isLineTerminator (c : Char) : Bool :=
  c.toNat == 0x0A || c.toNat == 0x0D || c.toNat == 0x2028 || c.toNat == 0x2029

/-- The class `.` -/
def dot (c : Char) : Bool := !isLineTerminator c

/-- The class `[a-z]` -/
def isLower (c : Char) : Bool := 0x61 ≤ c.toNat && c.toNat ≤ 0x7A

/-- The class `[A-Z]` -/
def isUpper (c : Char) : Bool := 0x41 ≤ c.toNat && c.toNat ≤ 0x5A

/-- The class `\d` -/
def isDigit (c : Char) : Bool := 0x30 ≤ c.toNat && c.toNat ≤ 0x39

/-- The class `[!@#$%^&*()_+]` -/
def isSpecial (c : Char) : Bool :=
  c.toNat == 0x21 || c.toNat == 0x40 || c.toNat == 0x23 || c.toNat == 0x24 ||
  c.toNat == 0x25 || c.toNat == 0x5E || c.toNat == 0x26 || c.toNat == 0x2A ||
  c.toNat == 0x28 || c.toNat == 0x29 || c.toNat == 0x5F || c.toNat == 0x2B

/-- The class `[A-Za-z\d!@#$%^&*()_+]` -/
def isPasswordChar (c : Char) : Bool :=
  isUpper c || isLower c || isDigit c || isSpecial c

/-- The class `[^\s@]` -/
def notSpaceNorAt (c : Char) : Bool := !isWhiteSpace c && !(c.toNat == 0x40)

/-- A continuation: the matcher of the rest of the pattern. -/
abbrev Cont := List Char → Bool

/-- One character of class `p`, then `k`. -/
def classThen (p : Char → Bool) (k : Cont) : Cont
  | [] => false
  | c :: cs => p c && k cs

/-- The pattern `X*` for a class `X`, then `k`. -/
def starThen (p : Char → Bool) (k : Cont) : Cont
  | [] => k []
  | c :: cs => (p c && starThen p k cs) || k (c :: cs)

/-- The pattern `X+` for a class `X`, then `k`. -/
def plusThen (p : Char → Bool) (k : Cont) : Cont
  | [] => false
  | c :: cs => p c && starThen p k cs

/-- The pattern `X{n,}` for a class `X`, then `k`. -/
def atLeastThen (p : Char → Bool) (k : Cont) : Nat → Cont
  | 0, cs => starThen p k cs
  | _ + 1, [] => false
  | n + 1, c :: cs => p c && atLeastThen p k n cs

/-- The assertion `$` (no `m` flag): end of input. -/
def atEnd : Cont
  | [] => true
  | _ :: _ => false

/-- A lookahead `(?=r)`, then `k`: `r` must match at the current position,
and `k` goes on from the same position. -/
def lookaheadThen (r : Cont → Cont) (k : Cont) : Cont :=
  fun cs => r (fun _ => true) cs && k cs

/-- `emailRegex.test`, for `/^[^\s@]+@[^\s@]+\.[^\s@]+$/` (line 661). -/
def emailRegexTest (cs : List Char) : Bool :=
  plusThen notSpaceNorAt
    (classThen (fun c => c.toNat == 0x40)
      (plusThen notSpaceNorAt
        (classThen (fun c => c.toNat == 0x2E)
          (plusThen notSpaceNorAt atEnd)))) cs

/-- `passwordRegex.test`, for
`/^(?=.*[a-z])(?=.*[A-Z])(?=.*\d)(?=.*[!@#$%^&*()_+])[A-Za-z\d!@#$%^&*()_+]{8,}$/`
(line 664). -/
def passwordRegexTest (cs : List Char) : Bool :=
  lookaheadThen (fun k => starThen dot (classThen isLower k))
    (lookaheadThen (fun k => starThen dot (classThen isUpper k))
      (lookaheadThen (fun k => starThen dot (classThen isDigit k))
        (lookaheadThen (fun k => starThen dot (classThen isSpecial k))
          (atLeastThen isPasswordChar atEnd 8)))) cs

/-- `String.prototype.trim` on a list of characters. -/
def trimChars (cs : List Char) : List Char :=
  ((cs.dropWhile isWhiteSpace).reverse.dropWhile isWhiteSpace).reverse

/-- `emailRegex.test(emailInput.value.trim())`, lines 668 and 680-683. -/
def emailValid (value : String) : Bool := emailRegexTest (trimChars value.toList)

/-- `passwordRegex.test(passwordInput.value.trim())`, lines 669 and 681-689. -/
def passwordValid (value : String) : Bool := passwordRegexTest (trimChars value.toList)

/-! ## The credential modal (lines 646-765) -/

/-- The page state read and written by the modal: the banners, the elements of
`#auth-modal`, and the three module variables of lines 647-649.  Keyboard
focus (`downloadButton.focus()`, line 702) is not part of the state. -/
structure Page where
  banners : Banners
  /-- `#auth-modal` carries the class `visible` -/
  modalVisible : Bool
  /-- `modalTitle.textContent` -/
  modalTitle : String
  /-- `emailInput.value` -/
  emailValue : String
  /-- `passwordInput.value` -/
  passwordValue : String
  /-- `modalErrorMessage.textContent` -/
  errorText : String
  /-- `modalErrorMessage` carries the class `hidden` -/
  errorHidden : Bool
  /-- `submitButton` carries the class `hidden` -/
  submitHidden : Bool
  /-- `submitButton.disabled` -/
  submitDisabled : Bool
  /-- `downloadButton` carries the class `hidden` -/
  downloadButtonHidden : Bool
  /-- the click listener `handler` of line 721 is registered on the modal -/
  closeListenerAttached : Bool
  currentDownloadUrl : Option String
  currentDownloadFileName : Option String
  currentToolName : Option String
  deriving DecidableEq, Repr

/-- Truthiness of a module variable that holds `null` or a string. -/
def truthy : Option String → Bool
  | none => false
  | some s => s != ""

/-- `toolName.charAt(0).toUpperCase() + toolName.slice(1)`, line 761
(`toUpperCase` on the letters a-z, which is what the five tool names start with). -/
def capitalize (toolName : String) : String :=
  match toolName.toList with
  | [] => ""
  | c :: cs => String.mk (c.toUpper :: cs)

/-- `showAuthModal(url, fileName, toolName)`, lines 738-765. -/
def showAuthModal (p : Page) (url fileName toolName : String) : Page :=
  { p with
    currentDownloadUrl := some url
    currentDownloadFileName := some fileName
    currentToolName := some toolName
    emailValue := ""
    passwordValue := ""
    errorText := ""
    errorHidden := true
    submitHidden := false
    submitDisabled := true
    downloadButtonHidden := true
    modalTitle := "Download Your " ++ capitalize toolName ++ "d PDF"
    modalVisible := true }

/-- `checkValidationAndToggleSubmitButton()`, lines 667-672. -/
def checkValidationAndToggleSubmitButton (p : Page) : Page :=
  { p with
    submitDisabled := !(emailValid p.emailValue && passwordValid p.passwordValue)
    errorHidden := true }

/-- An `input` event of the email field (line 675): the field holds `value`. -/
def emailInputEvent (p : Page) (value : String) : Page :=
  checkValidationAndToggleSubmitButton { p with emailValue := value }

/-- An `input` event of the password field (line 676): the field holds `value`. -/
def passwordInputEvent (p : Page) (value : String) : Page :=
  checkValidationAndToggleSubmitButton { p with passwordValue := value }

/-- The click handler of the Submit button, lines 679-703. -/
def submitClick (p : Page) : Page :=
  if !emailValid p.emailValue then
    { p with errorText := "Invalid email format.", errorHidden := false }
  else if !passwordValid p.passwordValue then
    { p with
      errorText := "Password must be at least 8 characters long and include uppercase, lowercase, number, and special character."
      errorHidden := false }
  else
    { p with
      errorText := "Authentication successful! Click Download to get your file."
      errorHidden := false
      submitHidden := true
      downloadButtonHidden := false }

/-- The click handler of the Download button, lines 706-718. -/
def downloadClick (p : Page) : Page :=
  { p with
    banners :=
      if truthy p.currentDownloadUrl && truthy p.currentDownloadFileName then
        showDownload p.banners (p.currentDownloadFileName.getD "") (p.currentDownloadUrl.getD "")
      else
        showMessage p.banners "Error: No file prepared for download." MessageType.error
    modalVisible := false
    currentDownloadUrl := none
    currentDownloadFileName := none
    currentToolName := none }

/-- A click whose target is the modal itself (outside the modal body) or the
close button, lines 721-734.  The listener runs only while it is registered,
and it unregisters itself (line 725). -/
def closeClick (p : Page) : Page :=
  if p.closeListenerAttached then
    { p with
      modalVisible := false
      closeListenerAttached := false
      emailValue := ""
      passwordValue := ""
      errorHidden := true
      submitHidden := false
      submitDisabled := true
      downloadButtonHidden := true }
  else p

/-- `setupAuthModalListeners()`, lines 651-735: the listeners are registered. -/
def setupAuthModalListeners (p : Page) : Page :=
  { p with closeListenerAttached := true }

/-- The commands of the modal. -/
inductive Cmd where
  /-- a tool adapter calls `showAuthModal(url, fileName, toolName)` -/
  | open (url fileName toolName : String)
  /-- the user edits the email field -/
  | inputEmail (value : String)
  /-- the user edits the password field -/
  | inputPassword (value : String)
  /-- click on Submit -/
  | submit
  /-- click on Download -/
  | confirmDownload
  /-- click outside the modal body or on the close button -/
  | dismiss
  deriving DecidableEq, Repr

/-- One command. -/
def step (p : Page) : Cmd → Page
  | Cmd.open url fileName toolName => showAuthModal p url fileName toolName
  | Cmd.inputEmail value => emailInputEvent p value
  | Cmd.inputPassword value => passwordInputEvent p value
  | Cmd.submit => submitClick p
  | Cmd.confirmDownload => downloadClick p
  | Cmd.dismiss => closeClick p

/-- A sequence of commands, in order. -/
def run (p : Page) (cs : List Cmd) : Page := cs.foldl step p

/-- The markup of a tool page before any script has run: nothing shown,
fields empty.  Every run studied below starts with `showAuthModal`, which
overwrites all modal fields of it. -/
def markup : Page :=
  { banners :=
      { messageText := "", messageIsError := false, messageHidden := true
        downloadHTML := "", downloadHidden := true }
    modalVisible := false
    modalTitle := ""
    emailValue := ""
    passwordValue := ""
    errorText := ""
    errorHidden := true
    submitHidden := false
    submitDisabled := true
    downloadButtonHidden := true
    closeListenerAttached := false
    currentDownloadUrl := none
    currentDownloadFileName := none
    currentToolName := none }

/-- The `DOMContentLoaded` handler as far as the modal is concerned, lines
188-230: `hideAllMessages()` and `setupAuthModalListeners()`. -/
def pageLoad : Page :=
  setupAuthModalListeners { markup with banners := hideAllMessages markup.banners }

/-- Whether a command is a call of `showAuthModal`. -/
def Cmd.isOpen : Cmd → Bool
  | Cmd.open _ _ _ => true
  | _ => false

/-! ### The phases of the specification -/

/-- The phases of the modal named by the specification. -/
inductive Phase where
  | Hidden
  | Collecting
  | Validated
  deriving DecidableEq, Repr

/-- The phase after a command, in the words of the specification: `open` leads
to Collecting, a submit that passes both validations leads from Collecting to
Validated, `confirmDownload` leads from Validated to Hidden, `dismiss` leads to
Hidden from any phase; the field values are those of the page. -/
def specPhaseStep (ph : Phase) (p : Page) : Cmd → Phase
  | Cmd.open _ _ _ => Phase.Collecting
  | Cmd.inputEmail _ => ph
  | Cmd.inputPassword _ => ph
  | Cmd.submit =>
      if ph = Phase.Collecting ∧ emailValid p.emailValue = true ∧
          passwordValid p.passwordValue = true then Phase.Validated else ph
  | Cmd.confirmDownload => if ph = Phase.Validated then Phase.Hidden else ph
  | Cmd.dismiss => Phase.Hidden

/-- The phase of the specification after a sequence of commands. -/
def specPhase : Phase → Page → List Cmd → Phase
  | ph, _, [] => ph
  | ph, p, c :: cs => specPhase (specPhaseStep ph p c) (step p c) cs

/-! ## Single-file tools (`setupSingleFileTool`, lines 37-185) -/

/-- A `File` as far as the script reads it: its name and its MIME type. -/
structure File where
  name : String
  type : String
  deriving DecidableEq, Repr

/-- The `options` argument of `setupSingleFileTool`, as far as intake reads it:
either property may be absent (`undefined`). -/
structure ToolOptions where
  allowedFileTypes : Option (List String)
  forceButtonDisabled : Option Bool
  deriving DecidableEq, Repr

/-- What the preview area of a single-file tool shows. -/
inductive Preview where
  /-- the text "No file selected yet." -/
  | placeholder
  /-- one thumbnail with a file name and a remove control -/
  | thumbnail (fileName : String)
  deriving DecidableEq, Repr

/-- The state of a single-file tool page. -/
structure SingleTool where
  /-- the closure variable `selectedFile`; `none` is `null` -/
  selectedFile : Option File
  preview : Preview
  /-- `processButton.disabled` -/
  processDisabled : Bool
  banners : Banners
  deriving DecidableEq, Repr

/-- `x || y` stored into a boolean property, for `x` an optional boolean. -/
def orElse (x : Option Bool) (y : Bool) : Bool :=
  match x with
  | some true => true
  | _ => y

/-- `renderFilePreview()`, lines 49-81. -/
def renderFilePreview (o : ToolOptions) (t : SingleTool) : SingleTool :=
  match t.selectedFile with
  | none =>
      { t with
        preview := Preview.placeholder
        processDisabled := orElse o.forceButtonDisabled true }
  | some file =>
      { t with
        preview := Preview.thumbnail file.name
        processDisabled := orElse o.forceButtonDisabled false }

/-- The text of the error of lines 90-94. -/
def unsupportedTypeMessage (allowed : List String) (file : File) : String :=
  "File \"" ++ file.name ++ "\" is not a supported type for this tool. Please select a " ++
    " or ".intercalate (allowed.map fun t => (t.splitOn "/").getD 1 "") ++ " file."

/-- `addFile(file)`, lines 83-104. -/
def addFile (o : ToolOptions) (t : SingleTool) (file : File) : SingleTool :=
  match o.allowedFileTypes with
  | some allowed =>
      if !allowed.contains file.type then
        { t with
          banners := showMessage t.banners (unsupportedTypeMessage allowed file) MessageType.error
          selectedFile := none }
      else
        let t1 := renderFilePreview o { t with selectedFile := some file }
        { t1 with banners := hideAllMessages t1.banners }
  | none =>
      let t1 := renderFilePreview o { t with selectedFile := some file }
      { t1 with banners := hideAllMessages t1.banners }

/-- The click handler of a thumbnail's remove control, lines 76-80. -/
def removeSelectedFile (o : ToolOptions) (t : SingleTool) : SingleTool :=
  let t1 := renderFilePreview o { t with selectedFile := none }
  { t1 with banners := hideAllMessages t1.banners }

/-- The state `setupSingleFileTool` leaves: `selectedFile = null` and the
initial render of line 184. -/
def setupSingleFileTool (o : ToolOptions) (b : Banners) : SingleTool :=
  renderFilePreview o
    { selectedFile := none, preview := Preview.placeholder, processDisabled := false, banners := b }

/-- The intake commands of a single-file tool. -/
inductive IntakeCmd where
  | addFile (file : File)
  | removeFile
  deriving DecidableEq, Repr

/-- One intake command. -/
def intakeStep (o : ToolOptions) (t : SingleTool) : IntakeCmd → SingleTool
  | IntakeCmd.addFile file => addFile o t file
  | IntakeCmd.removeFile => removeSelectedFile o t

/-- A sequence of intake commands, in order. -/
def intakeRun (o : ToolOptions) (t : SingleTool) (cs : List IntakeCmd) : SingleTool :=
  cs.foldl (intakeStep o) t

/-- Number of selected files of a single-file tool. -/
def SingleTool.selectionCount (t : SingleTool) : Nat :=
  match t.selectedFile with
  | none => 0
  | some _ => 1

/-- The options of the compress page, lines 206-208. -/
def compressOptions : ToolOptions :=
  { allowedFileTypes := some ["application/pdf"], forceButtonDisabled := none }

/-- Banners after `hideAllMessages()` on a page that has shown nothing. -/
def noBanners : Banners := hideAllMessages markup.banners

/-! ## The merge page (`setupMergePage`, lines 234-417) -/

/-- What the preview area of the merge page shows. -/
inductive MergePreview where
  /-- the text "No files selected yet." -/
  | placeholder
  /-- one thumbnail per selected file, in order, each with its file name -/
  | thumbnails (fileNames : List String)
  deriving DecidableEq, Repr

/-- The state of the merge page.  A thumbnail element is identified by the
render that created it and its position in that render. -/
structure MergePage where
  /-- the closure variable `selectedFiles` -/
  selectedFiles : List File
  preview : MergePreview
  /-- `processButton.disabled` -/
  processDisabled : Bool
  /-- number of renders so far -/
  renderCount : Nat
  /-- the closure variable `draggedItem`; `none` is `null` -/
  draggedItem : Option (Nat × Nat)
  banners : Banners
  deriving DecidableEq, Repr

/-- `renderFilePreviews()`, lines 243-274. -/
def renderFilePreviews (m : MergePage) : MergePage :=
  if m.selectedFiles.length = 0 then
    { m with
      preview := MergePreview.placeholder
      processDisabled := true
      renderCount := m.renderCount + 1 }
  else
    { m with
      preview := MergePreview.thumbnails (m.selectedFiles.map File.name)
      processDisabled := decide (m.selectedFiles.length < 2)
      renderCount := m.renderCount + 1 }

/-- The body of the `forEach` of `addFiles`, lines 277-286. -/
def addOneFile (m : MergePage) (file : File) : MergePage :=
  if file.type = "application/pdf" then
    { m with selectedFiles := m.selectedFiles ++ [file] }
  else
    { m with
      banners := showMessage m.banners
        ("File \"" ++ file.name ++ "\" is not a PDF and was skipped.") MessageType.error }

/-- `addFiles(files)`, lines 276-289. -/
def addFiles (m : MergePage) (files : List File) : MergePage :=
  let m1 := renderFilePreviews (files.foldl addOneFile m)
  { m1 with banners := hideAllMessages m1.banners }

/-- `removeFile(indexToRemove)`, lines 291-295. -/
def removeFile (m : MergePage) (indexToRemove : Nat) : MergePage :=
  let kept := (m.selectedFiles.enum.filter fun e => e.1 != indexToRemove).map Prod.snd
  let m1 := renderFilePreviews { m with selectedFiles := kept }
  { m1 with banners := hideAllMessages m1.banners }

/-- `Array.prototype.splice(start, deleteCount, ...items)` for a start index
that is a natural number: the removed elements and the array afterwards. -/
def splice {α : Type} (xs : List α) (start deleteCount : Nat) (items : List α) :
    List α × List α :=
  ((xs.drop start).take deleteCount,
   xs.take start ++ items ++ (xs.drop start).drop deleteCount)

/-- `handleDragStart`, lines 352-358, on the thumbnail at position `index` of
the current render; it stores `index` as the drag data. -/
def handleDragStart (m : MergePage) (index : Nat) : MergePage :=
  { m with draggedItem := some (m.renderCount, index) }

/-- `handleDragEnd`, lines 360-368. -/
def handleDragEnd (m : MergePage) : MergePage :=
  { m with draggedItem := none }

/-- `handleDrop`, lines 393-405, on the thumbnail at position `target` of the
current render, with `data` the number read from the drag data
(`none`: `parseInt` yields `NaN`, which `splice` takes as index 0).
The result is `none` when the first `splice` removes nothing: the script then
inserts `undefined`, which is no `File`. -/
def handleDrop (m : MergePage) (target : Nat) (data : Option Nat) : Option MergePage :=
  if m.draggedItem = some (m.renderCount, target) then some m
  else
    let droppedIndex := target
    let draggedOriginalIndex := data.getD 0
    let first := splice m.selectedFiles draggedOriginalIndex 1 []
    match first.1 with
    | [] => none
    | removed :: _ =>
        let second := splice first.2 droppedIndex 0 [removed]
        let m1 := renderFilePreviews { m with selectedFiles := second.2 }
        some { m1 with banners := hideAllMessages m1.banners }

/-- The state `setupMergePage` leaves: no file and the initial render of line 416. -/
def setupMergePage (b : Banners) : MergePage :=
  renderFilePreviews
    { selectedFiles := [], preview := MergePreview.placeholder, processDisabled := false
      renderCount := 0, draggedItem := none, banners := b }

/-! ## The tool adapters (lines 425-644)

An adapter awaits the PDF library; what the library and the browser return is
a parameter: the outcome of the calls inside `try`, the value of `Date.now()`,
and for `compressPdf` the text built from the two file sizes (lines 583-594,
floating-point formatting). -/

/-- What the calls inside `try` come to. -/
inductive Outcome where
  /-- no exception; `URL.createObjectURL` returned `url` -/
  | ok (url : String)
  /-- an exception `error` was thrown; `message` is `error.message` -/
  | failed (message : Option String)
  deriving DecidableEq, Repr

/-- What the calls inside `try` come to, for an adapter that looks at the page count. -/
inductive PageOutcome where
  /-- no exception, at least one page; `URL.createObjectURL` returned `url` -/
  | ok (url : String)
  /-- the loaded document has no pages -/
  | noPages
  /-- an exception `error` was thrown; `message` is `error.message` -/
  | failed (message : Option String)
  deriving DecidableEq, Repr

/-- `error.message || "An unknown error occurred."` -/
def errorText (message : Option String) : String :=
  if truthy message then message.getD "" else "An unknown error occurred."

/-- `mergePdfs(files)`, lines 425-456. -/
def mergePdfs (p : Page) (now : Nat) (r : Outcome) : Page :=
  let p1 : Page :=
    { p with
      banners :=
        showMessage p.banners
          "Merging PDFs... This might take a moment, please do not close the tab."
          MessageType.info }
  match r with
  | Outcome.ok url => showAuthModal p1 url ("merged_document_" ++ toString now ++ ".pdf") "merge"
  | Outcome.failed message =>
      { p1 with
        banners :=
          showMessage p1.banners ("Error merging PDFs: " ++ errorText message)
            MessageType.error }

/-- `simpleEditPdf(file, textToAdd)`, lines 464-502. -/
def simpleEditPdf (p : Page) (now : Nat) (r : PageOutcome) : Page :=
  let p1 : Page :=
    { p with
      banners :=
        showMessage p.banners "Adding text to PDF... This might take a moment."
          MessageType.info }
  match r with
  | PageOutcome.noPages =>
      { p1 with
        banners :=
          showMessage p1.banners "The selected PDF has no pages to edit." MessageType.error }
  | PageOutcome.ok url => showAuthModal p1 url ("edited_document_" ++ toString now ++ ".pdf") "edit"
  | PageOutcome.failed message =>
      { p1 with
        banners :=
          showMessage p1.banners ("Error adding text to PDF: " ++ errorText message)
            MessageType.error }

/-- Whether four characters match `\.pdf` under the flag `i`. -/
def isPdfSuffix : List Char → Bool
  | [a, b, c, d] =>
      a.toNat == 0x2E && (b.toNat == 0x70 || b.toNat == 0x50) &&
      (c.toNat == 0x64 || c.toNat == 0x44) && (d.toNat == 0x66 || d.toNat == 0x46)
  | _ => false

/-- `file.name.replace(/\.pdf$/i, "")`, line 532. -/
def baseFileName (name : String) : String :=
  if isPdfSuffix (name.toList.drop (name.toList.length - 4)) then
    String.mk (name.toList.take (name.toList.length - 4))
  else name

/-- `splitPdf(file)`, lines 510-555. -/
def splitPdf (p : Page) (fileName : String) (r : PageOutcome) : Page :=
  let p1 : Page :=
    { p with
      banners :=
        showMessage p.banners
          "Splitting PDF into individual pages and zipping... This might take a moment."
          MessageType.info }
  match r with
  | PageOutcome.noPages =>
      { p1 with
        banners :=
          showMessage p1.banners "The selected PDF has no pages to split." MessageType.error }
  | PageOutcome.ok url => showAuthModal p1 url (baseFileName fileName ++ "_split_pages.zip") "split"
  | PageOutcome.failed message =>
      { p1 with
        banners :=
          showMessage p1.banners ("Error splitting PDF: " ++ errorText message)
            MessageType.error }

/-- `compressPdf(file)`, lines 562-606; `sizeMessage` is the text `msg` of
lines 583-594. -/
def compressPdf (p : Page) (now : Nat) (sizeMessage : String) (r : Outcome) : Page :=
  let p1 : Page :=
    { p with
      banners :=
        showMessage p.banners
          "Attempting to compress PDF... This may take a moment. Significant size reduction is not guaranteed client-side."
          MessageType.info }
  match r with
  | Outcome.ok url =>
      let p2 : Page := { p1 with banners := showMessage p1.banners sizeMessage MessageType.info }
      showAuthModal p2 url ("compressed_document_" ++ toString now ++ ".pdf") "compress"
  | Outcome.failed message =>
      { p1 with
        banners :=
          showMessage p1.banners ("Error compressing PDF: " ++ errorText message)
            MessageType.error }

/-- `protectPdf(file, password)`, lines 614-644. -/
def protectPdf (p : Page) (now : Nat) (password : String) (r : Outcome) : Page :=
  if password = "" then
    { p with
      banners :=
        showMessage p.banners "Please enter a password to protect the PDF." MessageType.error }
  else
    let p1 : Page :=
      { p with
        banners :=
          showMessage p.banners "Protecting PDF with password... This might take a moment."
            MessageType.info }
    match r with
    | Outcome.ok url =>
        showAuthModal p1 url ("protected_document_" ++ toString now ++ ".pdf") "protect"
    | Outcome.failed message =>
        { p1 with
          banners :=
            showMessage p1.banners ("Error protecting PDF: " ++ errorText message)
              MessageType.error }

/-- The operations that change what the page shows: the three banner
functions (called by the intake handlers and the process buttons), the five
adapters, and the commands of the modal (`showAuthModal` is `Cmd.open`). -/
inductive PageOp where
  | showMessage (message : String) (type : MessageType)
  | showDownload (fileName blobUrl : String)
  | hideAllMessages
  | mergePdfs (now : Nat) (r : Outcome)
  | simpleEditPdf (now : Nat) (r : PageOutcome)
  | splitPdf (fileName : String) (r : PageOutcome)
  | compressPdf (now : Nat) (sizeMessage : String) (r : Outcome)
  | protectPdf (now : Nat) (password : String) (r : Outcome)
  | modal (c : Cmd)
  deriving DecidableEq, Repr

/-- One operation. -/
def pageStep (p : Page) : PageOp → Page
  | PageOp.showMessage message type => { p with banners := showMessage p.banners message type }
  | PageOp.showDownload fileName blobUrl =>
      { p with banners := showDownload p.banners fileName blobUrl }
  | PageOp.hideAllMessages => { p with banners := hideAllMessages p.banners }
  | PageOp.mergePdfs now r => mergePdfs p now r
  | PageOp.simpleEditPdf now r => simpleEditPdf p now r
  | PageOp.splitPdf fileName r => splitPdf p fileName r
  | PageOp.compressPdf now sizeMessage r => compressPdf p now sizeMessage r
  | PageOp.protectPdf now password r => protectPdf p now password r
  | PageOp.modal c => step p c

/-- A sequence of operations, in order. -/
def pageRun (p : Page) (ops : List PageOp) : Page := ops.foldl pageStep p

/-- How many of the message banner, the download banner and the modal are visible. -/
def visibleCount (p : Page) : Nat :=
  (if p.banners.messageHidden then 0 else 1) + (if p.banners.downloadHidden then 0 else 1) +
    (if p.modalVisible then 1 else 0)

/-! ## Notions used to state the properties -/

/-- The form `local-part@domain.tld`: a non-empty run of characters that are
neither white space nor `@`, then `@`, then a non-empty such run, then `.`,
then a non-empty such run, and nothing else. -/
def EmailForm (cs : List Char) : Prop :=
  ∃ l d t : List Char, cs = l ++ '@' :: (d ++ '.' :: t) ∧ l ≠ [] ∧ d ≠ [] ∧ t ≠ [] ∧
    (∀ c ∈ l, notSpaceNorAt c = true) ∧ (∀ c ∈ d, notSpaceNorAt c = true) ∧
    (∀ c ∈ t, notSpaceNorAt c = true)

/-- Whether a command is an edit of one of the two fields. -/
def Cmd.isInput : Cmd → Bool
  | Cmd.inputEmail _ => true
  | Cmd.inputPassword _ => true
  | _ => false

/-- A list of calls of `showAuthModal`, given by their arguments
`(url, fileName, toolName)`. -/
def opens (os : List (String × String × String)) : List Cmd :=
  os.map fun o => Cmd.open o.1 o.2.1 o.2.2

/-- The password condition in the words of claim C3: length at least 8, a
lowercase letter, an uppercase letter, a digit and a character of the set
`! @ # $ % ^ & * ( ) _ +`. -/
def PasswordClaim (p : String) : Prop :=
  8 ≤ p.length ∧ (∃ c ∈ p.toList, isLower c = true) ∧ (∃ c ∈ p.toList, isUpper c = true) ∧
    (∃ c ∈ p.toList, isDigit c = true) ∧ (∃ c ∈ p.toList, isSpecial c = true)

/-! ## What the two patterns accept -/

theorem classThen_iff (p : Char → Bool) (k : Cont) (cs : List Char) :
    classThen p k cs = true ↔ ∃ c rest, cs = c :: rest ∧ p c = true ∧ k rest = true := by
  cases cs with
  | nil => simp [classThen]
  | cons c cs =>
    simp only [classThen, Bool.and_eq_true]
    constructor
    · rintro ⟨hp, hk⟩
      exact ⟨c, cs, rfl, hp, hk⟩
    · rintro ⟨d, rest, h, hp, hk⟩
      simp only [List.cons.injEq] at h
      obtain ⟨rfl, rfl⟩ := h
      exact ⟨hp, hk⟩

theorem atEnd_iff (cs : List Char) : atEnd cs = true ↔ cs = [] := by
  cases cs <;> simp [atEnd]

theorem starThen_iff (p : Char → Bool) (k : Cont) (cs : List Char) :
    starThen p k cs = true ↔
      ∃ pre rest, cs = pre ++ rest ∧ (∀ c ∈ pre, p c = true) ∧ k rest = true := by
  induction cs with
  | nil =>
    constructor
    · intro h
      exact ⟨[], [], rfl, by simp, by simpa [starThen] using h⟩
    · rintro ⟨pre, rest, h, -, hk⟩
      have hrest : rest = [] := (List.append_eq_nil.mp h.symm).2
      subst hrest
      simpa [starThen] using hk
  | cons c cs ih =>
    constructor
    · intro h
      simp only [starThen, Bool.or_eq_true, Bool.and_eq_true] at h
      rcases h with ⟨hc, hs⟩ | hk
      · obtain ⟨pre, rest, hcs, hall, hk⟩ := ih.mp hs
        refine ⟨c :: pre, rest, by simp [hcs], ?_, hk⟩
        intro d hd
        rcases List.mem_cons.mp hd with rfl | hd
        · exact hc
        · exact hall d hd
      · exact ⟨[], c :: cs, rfl, by simp, hk⟩
    · rintro ⟨pre, rest, h, hall, hk⟩
      simp only [starThen, Bool.or_eq_true, Bool.and_eq_true]
      cases pre with
      | nil =>
        right
        simp only [List.nil_append] at h
        rw [h]
        exact hk
      | cons d pre =>
        left
        simp only [List.cons_append, List.cons.injEq] at h
        obtain ⟨rfl, hcs⟩ := h
        exact ⟨hall c (List.mem_cons_self _ _),
          ih.mpr ⟨pre, rest, hcs, fun e he => hall e (List.mem_cons_of_mem _ he), hk⟩⟩

theorem plusThen_iff (p : Char → Bool) (k : Cont) (cs : List Char) :
    plusThen p k cs = true ↔
      ∃ pre rest, cs = pre ++ rest ∧ pre ≠ [] ∧ (∀ c ∈ pre, p c = true) ∧ k rest = true := by
  cases cs with
  | nil =>
    constructor
    · intro h
      simp [plusThen] at h
    · rintro ⟨pre, rest, h, hne, -, -⟩
      exact absurd (List.append_eq_nil.mp h.symm).1 hne
  | cons c cs =>
    simp only [plusThen, Bool.and_eq_true, starThen_iff]
    constructor
    · rintro ⟨hc, pre, rest, hcs, hall, hk⟩
      refine ⟨c :: pre, rest, by simp [hcs], by simp, ?_, hk⟩
      intro d hd
      rcases List.mem_cons.mp hd with rfl | hd
      · exact hc
      · exact hall d hd
    · rintro ⟨pre, rest, h, hne, hall, hk⟩
      cases pre with
      | nil => exact absurd rfl hne
      | cons d pre =>
        simp only [List.cons_append, List.cons.injEq] at h
        obtain ⟨rfl, hcs⟩ := h
        exact ⟨hall c (List.mem_cons_self _ _), pre, rest, hcs,
          fun e he => hall e (List.mem_cons_of_mem _ he), hk⟩

theorem atLeastThen_atEnd_iff (p : Char → Bool) (n : Nat) (cs : List Char) :
    atLeastThen p atEnd n cs = true ↔ n ≤ cs.length ∧ ∀ c ∈ cs, p c = true := by
  induction n generalizing cs with
  | zero =>
    simp only [atLeastThen, starThen_iff, atEnd_iff]
    constructor
    · rintro ⟨pre, rest, rfl, hall, rfl⟩
      exact ⟨Nat.zero_le _, by simpa using hall⟩
    · rintro ⟨-, hall⟩
      exact ⟨cs, [], by simp, hall, rfl⟩
  | succ n ih =>
    cases cs with
    | nil => simp [atLeastThen]
    | cons c cs =>
      simp only [atLeastThen, Bool.and_eq_true, ih, List.length_cons, List.mem_cons,
        forall_eq_or_imp]
      constructor
      · rintro ⟨hc, hn, hall⟩
        exact ⟨by omega, hc, hall⟩
      · rintro ⟨hn, hc, hall⟩
        exact ⟨hc, by omega, hall⟩

theorem lookahead_imp (q : Char → Bool) (cs : List Char)
    (h : starThen dot (classThen q (fun _ => true)) cs = true) : ∃ c ∈ cs, q c = true := by
  obtain ⟨pre, rest, hcs, -, hk⟩ := (starThen_iff _ _ _).mp h
  obtain ⟨c, rest2, hrest, hq, -⟩ := (classThen_iff _ _ _).mp hk
  exact ⟨c, by simp [hcs, hrest], hq⟩

theorem lookahead_of_mem (q : Char → Bool) (cs : List Char)
    (hdot : ∀ c ∈ cs, dot c = true) (h : ∃ c ∈ cs, q c = true) :
    starThen dot (classThen q (fun _ => true)) cs = true := by
  obtain ⟨c, hc, hq⟩ := h
  obtain ⟨pre, rest, hcs⟩ := List.append_of_mem hc
  refine (starThen_iff _ _ _).mpr ⟨pre, c :: rest, hcs, ?_, ?_⟩
  · intro d hd
    exact hdot d (by simp [hcs, hd])
  · exact (classThen_iff _ _ _).mpr ⟨c, rest, rfl, hq, rfl⟩

theorem dot_of_isPasswordChar (c : Char) (h : isPasswordChar c = true) : dot c = true := by
  simp only [isPasswordChar, isUpper, isLower, isDigit, isSpecial, Bool.or_eq_true,
    Bool.and_eq_true, decide_eq_true_eq, beq_iff_eq] at h
  simp only [dot, isLineTerminator, Bool.not_eq_true', Bool.or_eq_false_iff, beq_eq_false_iff_ne]
  omega

/-- What `passwordRegex` accepts: strings of at least 8 characters, all of the
class `[A-Za-z\d!@#$%^&*()_+]`, with a character of each of the four classes. -/
theorem passwordRegexTest_iff (cs : List Char) :
    passwordRegexTest cs = true ↔
      8 ≤ cs.length ∧ (∀ c ∈ cs, isPasswordChar c = true) ∧
      (∃ c ∈ cs, isLower c = true) ∧ (∃ c ∈ cs, isUpper c = true) ∧
      (∃ c ∈ cs, isDigit c = true) ∧ (∃ c ∈ cs, isSpecial c = true) := by
  simp only [passwordRegexTest, lookaheadThen, Bool.and_eq_true, atLeastThen_atEnd_iff]
  constructor
  · rintro ⟨h1, h2, h3, h4, hlen, hall⟩
    exact ⟨hlen, hall, lookahead_imp _ _ h1, lookahead_imp _ _ h2, lookahead_imp _ _ h3,
      lookahead_imp _ _ h4⟩
  · rintro ⟨hlen, hall, h1, h2, h3, h4⟩
    have hdot : ∀ c ∈ cs, dot c = true := fun c hc => dot_of_isPasswordChar c (hall c hc)
    exact ⟨lookahead_of_mem _ _ hdot h1, lookahead_of_mem _ _ hdot h2,
      lookahead_of_mem _ _ hdot h3, lookahead_of_mem _ _ hdot h4, hlen, hall⟩

theorem toNat_beq_iff (c : Char) (n : Nat) :
    (c.toNat == n) = true ↔ c = Char.ofNat n ∧ (Char.ofNat n).toNat = n := by
  simp only [beq_iff_eq]
  constructor
  · intro h
    have hc : c = Char.ofNat n := by rw [← h, Char.ofNat_toNat]
    exact ⟨hc, by rw [← hc]; exact h⟩
  · rintro ⟨rfl, h⟩
    exact h

/-- What `emailRegex` accepts. -/
theorem emailRegexTest_iff (cs : List Char) : emailRegexTest cs = true ↔ EmailForm cs := by
  simp only [emailRegexTest, plusThen_iff, classThen_iff, atEnd_iff, toNat_beq_iff, EmailForm]
  constructor
  · rintro ⟨l, r1, rfl, hl, hlall, a, r2, rfl, ⟨rfl, -⟩, d, r3, rfl, hd, hdall, b, r4, rfl,
      ⟨rfl, -⟩, t, r5, rfl, ht, htall, rfl⟩
    exact ⟨l, d, t, by simp, hl, hd, ht, hlall, hdall, htall⟩
  · rintro ⟨l, d, t, rfl, hl, hd, ht, hlall, hdall, htall⟩
    exact ⟨l, _, rfl, hl, hlall, _, _, rfl, ⟨rfl, by decide⟩, d, _, rfl, hd, hdall, _, _, rfl,
      ⟨rfl, by decide⟩, t, [], by simp, ht, htall, rfl⟩

/-! ## Helper facts about runs of modal commands -/

theorem run_append (p : Page) (cs ds : List Cmd) : run p (cs ++ ds) = run (run p cs) ds := by
  simp [run, List.foldl_append]

theorem run_snoc (p : Page) (cs : List Cmd) (c : Cmd) : run p (cs ++ [c]) = step (run p cs) c := by
  simp [run, List.foldl_append]

theorem run_inputs_keep (inputs : List Cmd) (hin : ∀ c ∈ inputs, c.isInput = true) (p : Page) :
    (run p inputs).banners = p.banners ∧
    (run p inputs).currentDownloadUrl = p.currentDownloadUrl ∧
    (run p inputs).currentDownloadFileName = p.currentDownloadFileName ∧
    (run p inputs).modalVisible = p.modalVisible := by
  induction inputs generalizing p with
  | nil => simp [run]
  | cons c cs ih =>
    have hc : c.isInput = true := hin c (List.mem_cons_self _ _)
    have hcs : ∀ d ∈ cs, d.isInput = true := fun d hd => hin d (List.mem_cons_of_mem _ hd)
    have hrun : run p (c :: cs) = run (step p c) cs := rfl
    rw [hrun]
    obtain ⟨h1, h2, h3, h4⟩ := ih hcs (step p c)
    rw [h1, h2, h3, h4]
    cases c <;> simp [Cmd.isInput] at hc <;>
      simp [step, emailInputEvent, passwordInputEvent, checkValidationAndToggleSubmitButton]

/-! ## The claims -/

/-- What the password check accepts: a value is accepted iff the value with
white space trimmed from both ends has at least 8 characters, consists only of
letters a-z and A-Z, digits and the characters `! @ # $ % ^ & * ( ) _ +`, and
contains a lowercase letter, an uppercase letter, a digit and a character of
that set. -/
theorem passwordValid_iff (p : String) :
    passwordValid p = true ↔
      8 ≤ (trimChars p.toList).length ∧
      (∀ c ∈ trimChars p.toList, isPasswordChar c = true) ∧
      (∃ c ∈ trimChars p.toList, isLower c = true) ∧
      (∃ c ∈ trimChars p.toList, isUpper c = true) ∧
      (∃ c ∈ trimChars p.toList, isDigit c = true) ∧
      (∃ c ∈ trimChars p.toList, isSpecial c = true) :=
  passwordRegexTest_iff _

/-- C3, the code at the failing input: `"Abcdef1!-"` has nine characters, a
lowercase letter, an uppercase letter, a digit and the special character `!`,
so it meets the condition of the claim (and of the comment on line 662 and the
error text of lines 690-691), yet the password check refuses it: the pattern
admits no character outside its class, and `-` is outside.  The four values
named by the claim behave as it says. -/
theorem C3_password_refused :
    PasswordClaim "Abcdef1!-" ∧ isPasswordChar '-' = false ∧
    passwordValid "Abcdef1!-" = false ∧
    passwordValid "Abcdef1!" = true ∧ passwordValid "abcdef1!" = false ∧
    passwordValid "Abcdefg!" = false ∧ passwordValid "Abcdefg1" = false :=
  ⟨⟨by decide, ⟨'b', by decide, by decide⟩, ⟨'A', by decide, by decide⟩,
      ⟨'1', by decide, by decide⟩, ⟨'!', by decide, by decide⟩⟩,
   by decide, by decide, by decide, by decide, by decide, by decide⟩

/-- C4, as stated, fails: the value `"a@b.co "` ends in a space, so it is not
of the form `local-part@domain.tld` and nothing else, yet the email check
accepts it, because the check trims the value first. -/
theorem C4_counterexample :
    emailValid "a@b.co " = true ∧ ¬ EmailForm "a@b.co ".toList :=
  ⟨by decide, fun h => absurd ((emailRegexTest_iff _).mpr h) (by decide)⟩

/-- C4, amended: the email check accepts a value iff the value with white space
trimmed from both ends has the form `local-part@domain.tld` (a non-empty run of
characters that are neither white space nor `@`, then `@`, then a non-empty
such run, then `.`, then a non-empty such run, and nothing else); `"a@b.co"` is
accepted, `"a@b"` and `"a b@c.com"` are rejected. -/
theorem C4_email_check (e : String) :
    (emailValid e = true ↔ EmailForm (trimChars e.toList)) ∧
    emailValid "a@b.co" = true ∧ emailValid "a@b" = false ∧ emailValid "a b@c.com" = false :=
  ⟨emailRegexTest_iff _, by decide, by decide, by decide⟩

/-- C10: from every prior state and for every artifact, `showAuthModal` leaves
the modal visible with both fields empty, the message hidden, the submit
control shown and disabled, the download control hidden, and the artifact
stored as the pending one. -/
theorem C10_open_resets (p : Page) (url fileName toolName : String) :
    (step p (Cmd.open url fileName toolName)).modalVisible = true ∧
    (step p (Cmd.open url fileName toolName)).emailValue = "" ∧
    (step p (Cmd.open url fileName toolName)).passwordValue = "" ∧
    (step p (Cmd.open url fileName toolName)).errorHidden = true ∧
    (step p (Cmd.open url fileName toolName)).submitHidden = false ∧
    (step p (Cmd.open url fileName toolName)).submitDisabled = true ∧
    (step p (Cmd.open url fileName toolName)).downloadButtonHidden = true ∧
    (step p (Cmd.open url fileName toolName)).currentDownloadUrl = some url ∧
    (step p (Cmd.open url fileName toolName)).currentDownloadFileName = some fileName ∧
    (step p (Cmd.open url fileName toolName)).currentToolName = some toolName := by
  simp [step, showAuthModal]

theorem run_opens_stored (os : List (String × String × String)) (url fileName toolName : String)
    (p : Page) :
    (run p (opens os ++ [Cmd.open url fileName toolName])).currentDownloadUrl = some url ∧
    (run p (opens os ++ [Cmd.open url fileName toolName])).currentDownloadFileName =
      some fileName := by
  rw [run_snoc]
  simp [step, showAuthModal]

/-- C9, as stated, fails: `showAuthModal` called with an empty file name,
then valid credentials, a submit and `confirmDownload`: the Download handler
finds `currentDownloadFileName` falsy, so the download banner stays hidden and
the error "Error: No file prepared for download." is shown instead. -/
theorem C9_counterexample :
    (run pageLoad [Cmd.open "blob:1" "" "merge", Cmd.inputEmail "a@b.co",
        Cmd.inputPassword "Abcdef1!", Cmd.submit]).downloadButtonHidden = false ∧
    (run pageLoad [Cmd.open "blob:1" "" "merge", Cmd.inputEmail "a@b.co",
        Cmd.inputPassword "Abcdef1!", Cmd.submit,
        Cmd.confirmDownload]).banners.downloadHidden = true ∧
    (run pageLoad [Cmd.open "blob:1" "" "merge", Cmd.inputEmail "a@b.co",
        Cmd.inputPassword "Abcdef1!", Cmd.submit,
        Cmd.confirmDownload]).banners.downloadHTML = "" ∧
    (run pageLoad [Cmd.open "blob:1" "" "merge", Cmd.inputEmail "a@b.co",
        Cmd.inputPassword "Abcdef1!", Cmd.submit,
        Cmd.confirmDownload]).banners.messageHidden = false ∧
    (run pageLoad [Cmd.open "blob:1" "" "merge", Cmd.inputEmail "a@b.co",
        Cmd.inputPassword "Abcdef1!", Cmd.submit,
        Cmd.confirmDownload]).banners.messageText = "Error: No file prepared for download." := by
  decide

/-- C9, amended: after any calls of `showAuthModal`, the last one with a
non-empty reference `url` and a non-empty file name, then field edits that
leave both fields valid, a submit and one `confirmDownload`: the string written
to the download banner is the template of line 21 with exactly that file name
and that reference inserted, the banner is shown, the modal is hidden and the
stored artifact is cleared; a second `confirmDownload` hides the download
banner, shows the error "Error: No file prepared for download." and stores
nothing. -/
theorem C9_release_latest (p : Page) (os : List (String × String × String))
    (url fileName toolName : String) (inputs : List Cmd)
    (hin : ∀ c ∈ inputs, c.isInput = true)
    (hurl : url ≠ "") (hname : fileName ≠ "")
    (hemail : emailValid
      (run p (opens os ++ [Cmd.open url fileName toolName] ++ inputs)).emailValue = true)
    (hpassword : passwordValid
      (run p (opens os ++ [Cmd.open url fileName toolName] ++ inputs)).passwordValue = true) :
    (run p (opens os ++ [Cmd.open url fileName toolName] ++ inputs ++
        [Cmd.submit, Cmd.confirmDownload])).banners =
      showDownload (run p (opens os ++ [Cmd.open url fileName toolName])).banners fileName url ∧
    (run p (opens os ++ [Cmd.open url fileName toolName] ++ inputs ++
        [Cmd.submit, Cmd.confirmDownload])).banners.downloadHTML =
      "<p>Your file is ready: <a href=\"" ++ url ++ "\" download=\"" ++ fileName ++
        "\">Download " ++ fileName ++ "</a></p>" ∧
    (run p (opens os ++ [Cmd.open url fileName toolName] ++ inputs ++
        [Cmd.submit, Cmd.confirmDownload])).banners.downloadHidden = false ∧
    (run p (opens os ++ [Cmd.open url fileName toolName] ++ inputs ++
        [Cmd.submit, Cmd.confirmDownload])).modalVisible = false ∧
    (run p (opens os ++ [Cmd.open url fileName toolName] ++ inputs ++
        [Cmd.submit, Cmd.confirmDownload])).currentDownloadUrl = none ∧
    (run p (opens os ++ [Cmd.open url fileName toolName] ++ inputs ++
        [Cmd.submit, Cmd.confirmDownload])).currentDownloadFileName = none ∧
    (run p (opens os ++ [Cmd.open url fileName toolName] ++ inputs ++
        [Cmd.submit, Cmd.confirmDownload])).currentToolName = none ∧
    (run p (opens os ++ [Cmd.open url fileName toolName] ++ inputs ++
        [Cmd.submit, Cmd.confirmDownload, Cmd.confirmDownload])).banners.downloadHidden = true ∧
    (run p (opens os ++ [Cmd.open url fileName toolName] ++ inputs ++
        [Cmd.submit, Cmd.confirmDownload, Cmd.confirmDownload])).banners.messageHidden = false ∧
    (run p (opens os ++ [Cmd.open url fileName toolName] ++ inputs ++
        [Cmd.submit, Cmd.confirmDownload, Cmd.confirmDownload])).banners.messageIsError = true ∧
    (run p (opens os ++ [Cmd.open url fileName toolName] ++ inputs ++
        [Cmd.submit, Cmd.confirmDownload, Cmd.confirmDownload])).banners.messageText =
      "Error: No file prepared for download." ∧
    (run p (opens os ++ [Cmd.open url fileName toolName] ++ inputs ++
        [Cmd.submit, Cmd.confirmDownload, Cmd.confirmDownload])).currentDownloadUrl = none ∧
    (run p (opens os ++ [Cmd.open url fileName toolName] ++ inputs ++
        [Cmd.submit, Cmd.confirmDownload, Cmd.confirmDownload])).currentDownloadFileName = none := by
  obtain ⟨hu, hf⟩ := run_opens_stored os url fileName toolName p
  have hk := run_inputs_keep inputs hin (run p (opens os ++ [Cmd.open url fileName toolName]))
  rw [← run_append] at hk
  obtain ⟨hb, hku, hkf, -⟩ := hk
  rw [hu] at hku
  rw [hf] at hkf
  have h3 : ∀ q : Page, run q [Cmd.submit, Cmd.confirmDownload, Cmd.confirmDownload]
      = step (step (step q Cmd.submit) Cmd.confirmDownload) Cmd.confirmDownload := fun _ => rfl
  have h2 : ∀ q : Page, run q [Cmd.submit, Cmd.confirmDownload]
      = step (step q Cmd.submit) Cmd.confirmDownload := fun _ => rfl
  rw [run_append _ _ [Cmd.submit, Cmd.confirmDownload],
    run_append _ _ [Cmd.submit, Cmd.confirmDownload, Cmd.confirmDownload], h2, h3]
  generalize run p (opens os ++ [Cmd.open url fileName toolName] ++ inputs) = q at *
  simp [step, submitClick, downloadClick, hemail, hpassword, hku, hkf, hb, truthy,
    showDownload, showMessage, hurl, hname, downloadMarkup]

/-- C9 (amended) at a concrete run: two calls of `showAuthModal`, valid
credentials, submit, `confirmDownload`; the banner carries the file name and
the reference of the second call. -/
theorem C9_release_latest_witness :
    (run pageLoad (opens [("blob:0", "x.pdf", "edit")] ++ [Cmd.open "blob:1" "a.pdf" "merge"] ++
        [Cmd.inputEmail "a@b.co", Cmd.inputPassword "Abcdef1!"] ++
        [Cmd.submit, Cmd.confirmDownload])).banners.downloadHTML =
      "<p>Your file is ready: <a href=\"" ++ "blob:1" ++ "\" download=\"" ++ "a.pdf" ++
        "\">Download " ++ "a.pdf" ++ "</a></p>" :=
  (C9_release_latest pageLoad [("blob:0", "x.pdf", "edit")] "blob:1" "a.pdf" "merge"
    [Cmd.inputEmail "a@b.co", Cmd.inputPassword "Abcdef1!"]
    (by decide) (by decide) (by decide) (by decide) (by decide)).2.1

theorem downloadButton_shown_after_submit (p0 : Page) (h0 : p0.downloadButtonHidden = true)
    (cs : List Cmd) (h : (run p0 cs).downloadButtonHidden = false) :
    ∃ pre post, cs = pre ++ Cmd.submit :: post ∧
      emailValid (run p0 pre).emailValue = true ∧
      passwordValid (run p0 pre).passwordValue = true ∧
      ∀ c ∈ post, c.isOpen = false := by
  induction cs using List.reverseRecOn with
  | nil =>
    simp only [run, List.foldl_nil] at h
    rw [h0] at h
    exact absurd h (by decide)
  | append_singleton cs c ih =>
    rw [run_snoc] at h
    have keep : (run p0 cs).downloadButtonHidden = false → c.isOpen = false →
        ∃ pre post, cs ++ [c] = pre ++ Cmd.submit :: post ∧
          emailValid (run p0 pre).emailValue = true ∧
          passwordValid (run p0 pre).passwordValue = true ∧
          ∀ d ∈ post, d.isOpen = false := by
      intro hq hc
      obtain ⟨pre, post, hcs, he, hp, hpost⟩ := ih hq
      refine ⟨pre, post ++ [c], by simp [hcs], he, hp, ?_⟩
      intro d hd
      rcases List.mem_append.mp hd with hd | hd
      · exact hpost d hd
      · rw [List.mem_singleton.mp hd]
        exact hc
    cases c with
    | «open» url fileName toolName => simp [step, showAuthModal] at h
    | inputEmail v =>
      exact keep (by simpa [step, emailInputEvent, checkValidationAndToggleSubmitButton] using h) rfl
    | inputPassword v =>
      exact keep
        (by simpa [step, passwordInputEvent, checkValidationAndToggleSubmitButton] using h) rfl
    | submit =>
      by_cases he : emailValid (run p0 cs).emailValue = true
      · by_cases hp : passwordValid (run p0 cs).passwordValue = true
        · exact ⟨cs, [], rfl, he, hp, by simp⟩
        · exact keep (by simpa [step, submitClick, he, hp] using h) rfl
      · exact keep (by simpa [step, submitClick, he] using h) rfl
    | confirmDownload => exact keep (by simpa [step, downloadClick] using h) rfl
    | dismiss =>
      by_cases ha : (run p0 cs).closeListenerAttached = true
      · simp [step, closeClick, ha] at h
      · exact keep (by simpa [step, closeClick, ha] using h) rfl

theorem run_keeps_stored (post : List Cmd)
    (hpost : ∀ c ∈ post, c.isOpen = false ∧ c ≠ Cmd.confirmDownload) (p : Page) :
    (run p post).currentDownloadUrl = p.currentDownloadUrl ∧
    (run p post).currentDownloadFileName = p.currentDownloadFileName := by
  induction post generalizing p with
  | nil => simp [run]
  | cons c cs ih =>
    have hc := hpost c (List.mem_cons_self _ _)
    have hrun : run p (c :: cs) = run (step p c) cs := rfl
    rw [hrun]
    obtain ⟨h1, h2⟩ := ih (fun d hd => hpost d (List.mem_cons_of_mem _ hd)) (step p c)
    rw [h1, h2]
    cases c with
    | «open» url fileName toolName => simp [Cmd.isOpen] at hc
    | inputEmail v => simp [step, emailInputEvent, checkValidationAndToggleSubmitButton]
    | inputPassword v => simp [step, passwordInputEvent, checkValidationAndToggleSubmitButton]
    | submit =>
      simp only [step, submitClick]
      split
      · simp
      · split <;> simp
    | confirmDownload => simp at hc
    | dismiss =>
      simp only [step, closeClick]
      split <;> simp

/-- C1, the code at the failing input, every click on a control that is
shown: a first `showAuthModal` and a dismissal, a second `showAuthModal`, valid
credentials and a submit (phase Validated), then a dismissal.  By the
specification the phase is now Hidden; in the code the dismissal runs no
handler, the modal and the Download control are still shown, and the click on
Download writes the artifact to the download banner and shows it: a release by
a `confirmDownload` that is not in the Validated phase, with a dismiss between
the submit and it. -/
theorem C1_release_after_dismiss :
    specPhase Phase.Hidden pageLoad
      [Cmd.open "blob:7" "first.pdf" "compress", Cmd.dismiss,
        Cmd.open "blob:8" "second.pdf" "protect", Cmd.inputEmail "a@b.co",
        Cmd.inputPassword "Abcdef1!", Cmd.submit] = Phase.Validated ∧
    specPhase Phase.Hidden pageLoad
      [Cmd.open "blob:7" "first.pdf" "compress", Cmd.dismiss,
        Cmd.open "blob:8" "second.pdf" "protect", Cmd.inputEmail "a@b.co",
        Cmd.inputPassword "Abcdef1!", Cmd.submit, Cmd.dismiss] = Phase.Hidden ∧
    (run pageLoad
      [Cmd.open "blob:7" "first.pdf" "compress", Cmd.dismiss,
        Cmd.open "blob:8" "second.pdf" "protect", Cmd.inputEmail "a@b.co",
        Cmd.inputPassword "Abcdef1!", Cmd.submit, Cmd.dismiss]).modalVisible = true ∧
    (run pageLoad
      [Cmd.open "blob:7" "first.pdf" "compress", Cmd.dismiss,
        Cmd.open "blob:8" "second.pdf" "protect", Cmd.inputEmail "a@b.co",
        Cmd.inputPassword "Abcdef1!", Cmd.submit, Cmd.dismiss]).downloadButtonHidden = false ∧
    (run pageLoad
      [Cmd.open "blob:7" "first.pdf" "compress", Cmd.dismiss,
        Cmd.open "blob:8" "second.pdf" "protect", Cmd.inputEmail "a@b.co",
        Cmd.inputPassword "Abcdef1!", Cmd.submit, Cmd.dismiss]).banners.downloadHidden = true ∧
    (run pageLoad
      [Cmd.open "blob:7" "first.pdf" "compress", Cmd.dismiss,
        Cmd.open "blob:8" "second.pdf" "protect", Cmd.inputEmail "a@b.co",
        Cmd.inputPassword "Abcdef1!", Cmd.submit, Cmd.dismiss,
        Cmd.confirmDownload]).banners.downloadHidden = false ∧
    (run pageLoad
      [Cmd.open "blob:7" "first.pdf" "compress", Cmd.dismiss,
        Cmd.open "blob:8" "second.pdf" "protect", Cmd.inputEmail "a@b.co",
        Cmd.inputPassword "Abcdef1!", Cmd.submit, Cmd.dismiss,
        Cmd.confirmDownload]).banners.downloadHTML =
      "<p>Your file is ready: <a href=\"blob:8\" download=\"second.pdf\">Download second.pdf</a></p>" := by
  decide

/-- C2, the code at the failing input: after `showAuthModal`, valid
credentials, submit and a dismissal, the artifact is still stored, and the
Download handler shows the download banner with it.  The same release happens
on a run in which the Download control is still shown: a dismissal earlier in
the session has unregistered the close listener, so the dismissal after the
submit changes nothing. -/
theorem C2_dismiss_keeps_artifact :
    ((run pageLoad [Cmd.open "blob:1" "a.pdf" "merge", Cmd.inputEmail "a@b.co",
        Cmd.inputPassword "Abcdef1!", Cmd.submit,
        Cmd.dismiss]).currentDownloadUrl = some "blob:1" ∧
     (run pageLoad [Cmd.open "blob:1" "a.pdf" "merge", Cmd.inputEmail "a@b.co",
        Cmd.inputPassword "Abcdef1!", Cmd.submit,
        Cmd.dismiss]).currentDownloadFileName = some "a.pdf" ∧
     (run pageLoad [Cmd.open "blob:1" "a.pdf" "merge", Cmd.inputEmail "a@b.co",
        Cmd.inputPassword "Abcdef1!", Cmd.submit,
        Cmd.dismiss]).banners.downloadHidden = true ∧
     (run pageLoad [Cmd.open "blob:1" "a.pdf" "merge", Cmd.inputEmail "a@b.co",
        Cmd.inputPassword "Abcdef1!", Cmd.submit, Cmd.dismiss,
        Cmd.confirmDownload]).banners.downloadHidden = false ∧
     (run pageLoad [Cmd.open "blob:1" "a.pdf" "merge", Cmd.inputEmail "a@b.co",
        Cmd.inputPassword "Abcdef1!", Cmd.submit, Cmd.dismiss,
        Cmd.confirmDownload]).banners.downloadHTML = downloadMarkup "a.pdf" "blob:1") ∧
    ((run pageLoad [Cmd.open "blob:0" "x.pdf" "edit", Cmd.dismiss,
        Cmd.open "blob:1" "a.pdf" "merge", Cmd.inputEmail "a@b.co",
        Cmd.inputPassword "Abcdef1!", Cmd.submit,
        Cmd.dismiss]).downloadButtonHidden = false ∧
     (run pageLoad [Cmd.open "blob:0" "x.pdf" "edit", Cmd.dismiss,
        Cmd.open "blob:1" "a.pdf" "merge", Cmd.inputEmail "a@b.co",
        Cmd.inputPassword "Abcdef1!", Cmd.submit,
        Cmd.dismiss]).modalVisible = true ∧
     (run pageLoad [Cmd.open "blob:0" "x.pdf" "edit", Cmd.dismiss,
        Cmd.open "blob:1" "a.pdf" "merge", Cmd.inputEmail "a@b.co",
        Cmd.inputPassword "Abcdef1!", Cmd.submit, Cmd.dismiss,
        Cmd.confirmDownload]).banners.downloadHidden = false ∧
     (run pageLoad [Cmd.open "blob:0" "x.pdf" "edit", Cmd.dismiss,
        Cmd.open "blob:1" "a.pdf" "merge", Cmd.inputEmail "a@b.co",
        Cmd.inputPassword "Abcdef1!", Cmd.submit, Cmd.dismiss,
        Cmd.confirmDownload]).banners.downloadHTML = downloadMarkup "a.pdf" "blob:1") := by
  decide

/-- C8, the code at the failing input: the first dismissal hides the modal,
resets the controls and unregisters the close listener; after the next
`showAuthModal` the second dismissal changes nothing and the modal stays
visible. -/
theorem C8_second_dismiss_ignored :
    ((run pageLoad [Cmd.open "blob:1" "a.pdf" "merge", Cmd.dismiss]).modalVisible = false ∧
     (run pageLoad [Cmd.open "blob:1" "a.pdf" "merge", Cmd.dismiss]).emailValue = "" ∧
     (run pageLoad [Cmd.open "blob:1" "a.pdf" "merge", Cmd.dismiss]).passwordValue = "" ∧
     (run pageLoad [Cmd.open "blob:1" "a.pdf" "merge", Cmd.dismiss]).submitHidden = false ∧
     (run pageLoad [Cmd.open "blob:1" "a.pdf" "merge", Cmd.dismiss]).submitDisabled = true ∧
     (run pageLoad [Cmd.open "blob:1" "a.pdf" "merge", Cmd.dismiss]).downloadButtonHidden = true ∧
     (run pageLoad [Cmd.open "blob:1" "a.pdf" "merge",
        Cmd.dismiss]).closeListenerAttached = false) ∧
    (run pageLoad [Cmd.open "blob:1" "a.pdf" "merge", Cmd.dismiss,
      Cmd.open "blob:2" "b.pdf" "split"]).modalVisible = true ∧
    run pageLoad [Cmd.open "blob:1" "a.pdf" "merge", Cmd.dismiss,
        Cmd.open "blob:2" "b.pdf" "split", Cmd.dismiss] =
      run pageLoad [Cmd.open "blob:1" "a.pdf" "merge", Cmd.dismiss,
        Cmd.open "blob:2" "b.pdf" "split"] ∧
    (run pageLoad [Cmd.open "blob:1" "a.pdf" "merge", Cmd.dismiss,
      Cmd.open "blob:2" "b.pdf" "split", Cmd.dismiss]).modalVisible = true := by
  decide

/-! ## Helper facts about `splice` and the drop handler -/

theorem drop_take_one {α : Type} (xs : List α) (s : Nat) (hs : s < xs.length) :
    (xs.drop s).take 1 = [xs[s]] := by
  have h := List.drop_eq_getElem_cons hs
  rw [h]
  rfl

theorem splice_remove_one {α : Type} (xs : List α) (s : Nat) (hs : s < xs.length) :
    splice xs s 1 [] = ([xs[s]], xs.eraseIdx s) := by
  simp only [splice, drop_take_one xs s hs, List.append_nil, List.drop_drop,
    List.eraseIdx_eq_take_drop_succ]

theorem move_facts {α : Type} (xs : List α) (s t : Nat) (hs : s < xs.length)
    (ht : t < xs.length) :
    ((xs.eraseIdx s).take t ++ [xs[s]] ++ ((xs.eraseIdx s).drop t).drop 0).length = xs.length ∧
    ((xs.eraseIdx s).take t ++ [xs[s]] ++ ((xs.eraseIdx s).drop t).drop 0).Perm xs ∧
    ((xs.eraseIdx s).take t ++ [xs[s]] ++ ((xs.eraseIdx s).drop t).drop 0)[t]? = some xs[s] ∧
    ((xs.eraseIdx s).take t ++ [xs[s]] ++ ((xs.eraseIdx s).drop t).drop 0).eraseIdx t
      = xs.eraseIdx s := by
  have hlen : (xs.eraseIdx s).length = xs.length - 1 := by
    rw [List.length_eraseIdx, if_pos hs]
  have htk : ((xs.eraseIdx s).take t).length = t := by
    rw [List.length_take, hlen]; omega
  refine ⟨?_, ?_, ?_, ?_⟩
  · simp only [List.length_append, List.length_take, List.length_drop, List.length_cons,
      List.length_nil, List.drop_zero, hlen]
    omega
  · simp only [List.drop_zero, List.append_assoc, List.singleton_append]
    refine List.perm_middle.trans ?_
    rw [List.take_append_drop, List.eraseIdx_eq_take_drop_succ]
    have hx : xs = xs.take s ++ xs[s] :: xs.drop (s + 1) := by
      rw [← List.drop_eq_getElem_cons hs, List.take_append_drop]
    conv_rhs => rw [hx]
    exact List.perm_middle.symm
  · simp only [List.drop_zero, List.append_assoc, List.singleton_append]
    rw [List.getElem?_append_right (by omega)]
    simp [htk]
  · simp only [List.drop_zero, List.append_assoc, List.singleton_append]
    rw [List.eraseIdx_append_of_length_le (by omega)]
    simp [htk]

theorem renderFilePreviews_selectedFiles (m : MergePage) :
    (renderFilePreviews m).selectedFiles = m.selectedFiles := by
  unfold renderFilePreviews
  split <;> rfl

/-- C5: for a selection of `n` files, a drag started on the thumbnail at
index `s` and dropped on the thumbnail at index `t`, with `s, t < n` and
`s ≠ t`, the drop handler yields the single-element move: the new selection has
length `n` and the same files, the dragged file is at index `t`, and removing
it there leaves the other files in the order they had (the old selection
without index `s`). -/
theorem C5_drop_moves (m : MergePage) (s t : Nat) (hs : s < m.selectedFiles.length)
    (ht : t < m.selectedFiles.length) (hst : s ≠ t) :
    ∃ m1, handleDrop (handleDragStart m s) t (some s) = some m1 ∧
      m1.selectedFiles.length = m.selectedFiles.length ∧
      m1.selectedFiles.Perm m.selectedFiles ∧
      m1.selectedFiles[t]? = m.selectedFiles[s]? ∧
      m1.selectedFiles.eraseIdx t = m.selectedFiles.eraseIdx s := by
  obtain ⟨h1, h2, h3, h4⟩ := move_facts m.selectedFiles s t hs ht
  have hne : ¬ ((some (m.renderCount, s) : Option (Nat × Nat)) = some (m.renderCount, t)) := by
    intro h
    simp only [Option.some.injEq, Prod.mk.injEq, true_and] at h
    exact hst h
  simp only [handleDrop, handleDragStart, hne, if_false, Option.getD_some,
    splice_remove_one m.selectedFiles s hs]
  refine ⟨_, rfl, ?_, ?_, ?_, ?_⟩
  · simpa [renderFilePreviews_selectedFiles, splice] using h1
  · simpa [renderFilePreviews_selectedFiles, splice] using h2
  · rw [List.getElem?_eq_getElem hs]
    simpa [renderFilePreviews_selectedFiles, splice] using h3
  · simpa [renderFilePreviews_selectedFiles, splice] using h4

/-- C5 at the concrete input of the claim: `[f0, f1, f2]` with `s = 0` and
`t = 2` becomes `[f1, f2, f0]`. -/
theorem C5_drop_moves_witness :
    (handleDrop (handleDragStart
        (addFiles (setupMergePage noBanners)
          [⟨"f0", "application/pdf"⟩, ⟨"f1", "application/pdf"⟩, ⟨"f2", "application/pdf"⟩]) 0)
        2 (some 0)).map (fun m => m.selectedFiles.map File.name) = some ["f1", "f2", "f0"] ∧
    ∃ m1, handleDrop (handleDragStart
        (addFiles (setupMergePage noBanners)
          [⟨"f0", "application/pdf"⟩, ⟨"f1", "application/pdf"⟩, ⟨"f2", "application/pdf"⟩]) 0)
        2 (some 0) = some m1 ∧
      m1.selectedFiles.length = (addFiles (setupMergePage noBanners)
          [⟨"f0", "application/pdf"⟩, ⟨"f1", "application/pdf"⟩,
            ⟨"f2", "application/pdf"⟩]).selectedFiles.length ∧
      m1.selectedFiles.Perm (addFiles (setupMergePage noBanners)
          [⟨"f0", "application/pdf"⟩, ⟨"f1", "application/pdf"⟩,
            ⟨"f2", "application/pdf"⟩]).selectedFiles ∧
      m1.selectedFiles[2]? = (addFiles (setupMergePage noBanners)
          [⟨"f0", "application/pdf"⟩, ⟨"f1", "application/pdf"⟩,
            ⟨"f2", "application/pdf"⟩]).selectedFiles[0]? ∧
      m1.selectedFiles.eraseIdx 2 = (addFiles (setupMergePage noBanners)
          [⟨"f0", "application/pdf"⟩, ⟨"f1", "application/pdf"⟩,
            ⟨"f2", "application/pdf"⟩]).selectedFiles.eraseIdx 0 :=
  ⟨by decide,
   C5_drop_moves (addFiles (setupMergePage noBanners)
      [⟨"f0", "application/pdf"⟩, ⟨"f1", "application/pdf"⟩, ⟨"f2", "application/pdf"⟩]) 0 2
      (by decide) (by decide) (by decide)⟩

/-- C6, the code at the failing input: on the compress page a PDF is selected
(one file, button enabled), then a text file is offered; `addFile` clears the
selection and returns before the render, so no file is selected, the preview
still shows the PDF and the process button is still enabled. -/
theorem C6_button_stays_enabled :
    ((setupSingleFileTool compressOptions noBanners).processDisabled = true ∧
     (intakeRun compressOptions (setupSingleFileTool compressOptions noBanners)
        [IntakeCmd.addFile ⟨"a.pdf", "application/pdf"⟩]).selectionCount = 1 ∧
     (intakeRun compressOptions (setupSingleFileTool compressOptions noBanners)
        [IntakeCmd.addFile ⟨"a.pdf", "application/pdf"⟩]).processDisabled = false) ∧
    (intakeRun compressOptions (setupSingleFileTool compressOptions noBanners)
      [IntakeCmd.addFile ⟨"a.pdf", "application/pdf"⟩,
        IntakeCmd.addFile ⟨"b.txt", "text/plain"⟩]).selectionCount = 0 ∧
    (intakeRun compressOptions (setupSingleFileTool compressOptions noBanners)
      [IntakeCmd.addFile ⟨"a.pdf", "application/pdf"⟩,
        IntakeCmd.addFile ⟨"b.txt", "text/plain"⟩]).preview = Preview.thumbnail "a.pdf" ∧
    (intakeRun compressOptions (setupSingleFileTool compressOptions noBanners)
      [IntakeCmd.addFile ⟨"a.pdf", "application/pdf"⟩,
        IntakeCmd.addFile ⟨"b.txt", "text/plain"⟩]).processDisabled = false := by
  decide

/-- C7, as stated, fails: on the compress page with `a.pdf` selected, offering
a text file (a type outside the allowed list) leaves no file selected. -/
theorem C7_counterexample :
    "text/plain" ∉ ["application/pdf"] ∧
    (intakeRun compressOptions (setupSingleFileTool compressOptions noBanners)
      [IntakeCmd.addFile ⟨"a.pdf", "application/pdf"⟩]).selectedFile
        = some ⟨"a.pdf", "application/pdf"⟩ ∧
    (addFile compressOptions
      (intakeRun compressOptions (setupSingleFileTool compressOptions noBanners)
        [IntakeCmd.addFile ⟨"a.pdf", "application/pdf"⟩])
      ⟨"b.txt", "text/plain"⟩).selectedFile = none := by
  decide

/-- C7, amended: for every tool with an allowed-type list, every state and
every candidate whose MIME type is not in the list, `addFile` skips the
candidate, shows the error banner that names it, and clears the selection: no
file is selected afterwards. -/
theorem C7_reject_clears_selection (o : ToolOptions) (allowed : List String) (t : SingleTool)
    (file : File) (ho : o.allowedFileTypes = some allowed) (hty : file.type ∉ allowed) :
    (addFile o t file).selectedFile = none ∧
    (addFile o t file).banners =
      showMessage t.banners (unsupportedTypeMessage allowed file) MessageType.error ∧
    (addFile o t file).banners.messageHidden = false ∧
    (addFile o t file).banners.messageIsError = true ∧
    (addFile o t file).banners.messageText =
      "File \"" ++ file.name ++ "\" is not a supported type for this tool. Please select a " ++
        " or ".intercalate (allowed.map fun ty => (ty.splitOn "/").getD 1 "") ++ " file." := by
  simp [addFile, ho, hty, showMessage, unsupportedTypeMessage]

/-- C7 (amended) on the compress page with `a.pdf` selected and a text file
offered. -/
theorem C7_reject_clears_selection_witness :
    (addFile compressOptions
      (intakeRun compressOptions (setupSingleFileTool compressOptions noBanners)
        [IntakeCmd.addFile ⟨"a.pdf", "application/pdf"⟩])
      ⟨"b.txt", "text/plain"⟩).selectedFile = none :=
  (C7_reject_clears_selection compressOptions ["application/pdf"]
    (intakeRun compressOptions (setupSingleFileTool compressOptions noBanners)
      [IntakeCmd.addFile ⟨"a.pdf", "application/pdf"⟩])
    ⟨"b.txt", "text/plain"⟩ rfl (by decide)).1

/-! ## Helper facts for the submit control, the banners and the merge intake -/

theorem submitDisabled_step (p : Page) (c : Cmd)
    (h : p.submitDisabled = !(emailValid p.emailValue && passwordValid p.passwordValue)) :
    (step p c).submitDisabled =
      !(emailValid (step p c).emailValue && passwordValid (step p c).passwordValue) := by
  have he : emailValid "" = false := by decide
  cases c with
  | «open» url fileName toolName => simp [step, showAuthModal, he]
  | inputEmail v => simp [step, emailInputEvent, checkValidationAndToggleSubmitButton]
  | inputPassword v => simp [step, passwordInputEvent, checkValidationAndToggleSubmitButton]
  | submit =>
    simp only [step, submitClick]
    split
    · exact h
    · split <;> exact h
  | confirmDownload => exact h
  | dismiss =>
    simp only [step, closeClick]
    split
    · simp [he]
    · exact h

theorem submitDisabled_run (cs : List Cmd) (p : Page)
    (h : p.submitDisabled = !(emailValid p.emailValue && passwordValid p.passwordValue)) :
    (run p cs).submitDisabled =
      !(emailValid (run p cs).emailValue && passwordValid (run p cs).passwordValue) := by
  induction cs generalizing p with
  | nil => exact h
  | cons c cs ih => exact ih (step p c) (submitDisabled_step p c h)

theorem submitDisabled_open (p : Page) (url fileName toolName : String) :
    (step p (Cmd.open url fileName toolName)).submitDisabled =
      !(emailValid (step p (Cmd.open url fileName toolName)).emailValue &&
        passwordValid (step p (Cmd.open url fileName toolName)).passwordValue) := by
  have he : emailValid "" = false := by decide
  simp [step, showAuthModal, he]

theorem enabled_iff_of_eq (d e w : Bool) (h : d = !(e && w)) :
    d = false ↔ e = true ∧ w = true := by
  subst h
  cases e <;> cases w <;> simp

theorem step_banners_exclusive (p : Page) (c : Cmd)
    (h : p.banners.messageHidden = true ∨ p.banners.downloadHidden = true) :
    (step p c).banners.messageHidden = true ∨ (step p c).banners.downloadHidden = true := by
  cases c with
  | «open» url fileName toolName => simpa [step, showAuthModal] using h
  | inputEmail v => simpa [step, emailInputEvent, checkValidationAndToggleSubmitButton] using h
  | inputPassword v =>
    simpa [step, passwordInputEvent, checkValidationAndToggleSubmitButton] using h
  | submit =>
    simp only [step, submitClick]
    split
    · exact h
    · split <;> exact h
  | confirmDownload =>
    simp only [step, downloadClick]
    split
    · left; rfl
    · right; rfl
  | dismiss =>
    simp only [step, closeClick]
    split <;> exact h

theorem pageStep_banners_exclusive (p : Page) (op : PageOp)
    (h : p.banners.messageHidden = true ∨ p.banners.downloadHidden = true) :
    (pageStep p op).banners.messageHidden = true ∨
      (pageStep p op).banners.downloadHidden = true := by
  cases op with
  | showMessage message type => right; rfl
  | showDownload fileName blobUrl => left; rfl
  | hideAllMessages => left; rfl
  | mergePdfs now r => cases r <;> (right; rfl)
  | simpleEditPdf now r => cases r <;> (right; rfl)
  | splitPdf fileName r => cases r <;> (right; rfl)
  | compressPdf now sizeMessage r => cases r <;> (right; rfl)
  | protectPdf now password r =>
    simp only [pageStep, protectPdf]
    split
    · right; rfl
    · cases r <;> (right; rfl)
  | modal c => exact step_banners_exclusive p c h

theorem pageRun_banners_exclusive (ops : List PageOp) (p : Page)
    (h : p.banners.messageHidden = true ∨ p.banners.downloadHidden = true) :
    (pageRun p ops).banners.messageHidden = true ∨
      (pageRun p ops).banners.downloadHidden = true := by
  induction ops generalizing p with
  | nil => exact h
  | cons op ops ih => exact ih (pageStep p op) (pageStep_banners_exclusive p op h)

theorem foldl_addOneFile_selectedFiles (files : List File) (m : MergePage) :
    (files.foldl addOneFile m).selectedFiles =
      m.selectedFiles ++ files.filter (fun f => decide (f.type = "application/pdf")) := by
  induction files generalizing m with
  | nil => simp
  | cons f fs ih =>
    rw [List.foldl_cons, ih]
    by_cases hf : f.type = "application/pdf"
    · simp [addOneFile, hf]
    · simp [addOneFile, hf]

/-! ## The claims, continued -/

/-- C11: after every sequence of modal commands (in particular of open,
dismiss and field-input events) from a state in which the submit control is
enabled iff both field values are valid, and after every sequence that starts
with `showAuthModal` from any state, the submit control is enabled iff the
current email value and the current password value are both valid; and an
edit of either field hides the modal's message. -/
theorem C11_submit_enabled_iff_valid (p0 : Page) (cs : List Cmd)
    (url fileName toolName value : String) :
    ((p0.submitDisabled = !(emailValid p0.emailValue && passwordValid p0.passwordValue)) →
      ((run p0 cs).submitDisabled = false ↔
        emailValid (run p0 cs).emailValue = true ∧
        passwordValid (run p0 cs).passwordValue = true)) ∧
    ((run p0 (Cmd.open url fileName toolName :: cs)).submitDisabled = false ↔
      emailValid (run p0 (Cmd.open url fileName toolName :: cs)).emailValue = true ∧
      passwordValid (run p0 (Cmd.open url fileName toolName :: cs)).passwordValue = true) ∧
    (step (run p0 cs) (Cmd.inputEmail value)).errorHidden = true ∧
    (step (run p0 cs) (Cmd.inputPassword value)).errorHidden = true := by
  refine ⟨fun h0 => enabled_iff_of_eq _ _ _ (submitDisabled_run cs p0 h0), ?_, rfl, rfl⟩
  exact enabled_iff_of_eq _ _ _
    (submitDisabled_run cs (step p0 (Cmd.open url fileName toolName))
      (submitDisabled_open p0 url fileName toolName))

/-- C11 at a concrete run from page load: open, an invalid email, a dismissal,
open again, then valid credentials; the submit control is enabled. -/
theorem C11_submit_enabled_iff_valid_witness :
    (run pageLoad [Cmd.open "blob:1" "a.pdf" "merge", Cmd.inputEmail "a@b", Cmd.dismiss,
        Cmd.open "blob:1" "a.pdf" "merge", Cmd.inputEmail "a@b.co",
        Cmd.inputPassword "Abcdef1!"]).submitDisabled = false :=
  ((C11_submit_enabled_iff_valid pageLoad
    [Cmd.open "blob:1" "a.pdf" "merge", Cmd.inputEmail "a@b", Cmd.dismiss,
      Cmd.open "blob:1" "a.pdf" "merge", Cmd.inputEmail "a@b.co", Cmd.inputPassword "Abcdef1!"]
    "" "" "" "").1 (by decide)).mpr ⟨by decide, by decide⟩

/-- C12, as stated, fails: after a successful `compressPdf` (and after a
successful `mergePdfs`) the message banner and the modal are both visible, and
after `showAuthModal`, a dismissal and `hideAllMessages` none of the three is
visible. -/
theorem C12_counterexample :
    visibleCount (pageRun pageLoad
      [PageOp.compressPdf 5 "PDF re-saved." (Outcome.ok "blob:1")]) = 2 ∧
    visibleCount (pageRun pageLoad [PageOp.mergePdfs 5 (Outcome.ok "blob:1")]) = 2 ∧
    visibleCount (pageRun pageLoad
      [PageOp.modal (Cmd.open "blob:1" "a.pdf" "merge"), PageOp.modal Cmd.dismiss,
        PageOp.hideAllMessages]) = 0 := by
  decide

/-- C12, amended: in every state reached from one with at most one banner
visible (as after page load), at most one of the message banner and the
download banner is visible; `showMessage` shows the message banner and hides
the download banner, `showDownload` shows the download banner and hides the
message banner, `hideAllMessages` hides both, and none of the three changes
the visibility of the modal; `showAuthModal` shows the modal and leaves both
banners as they are. -/
theorem C12_banners_exclusive (p0 : Page) (ops : List PageOp)
    (h0 : p0.banners.messageHidden = true ∨ p0.banners.downloadHidden = true) :
    ((pageRun p0 ops).banners.messageHidden = true ∨
      (pageRun p0 ops).banners.downloadHidden = true) ∧
    (∀ message type,
      (pageStep (pageRun p0 ops) (PageOp.showMessage message type)).banners.messageHidden
        = false ∧
      (pageStep (pageRun p0 ops) (PageOp.showMessage message type)).banners.downloadHidden
        = true ∧
      (pageStep (pageRun p0 ops) (PageOp.showMessage message type)).modalVisible
        = (pageRun p0 ops).modalVisible) ∧
    (∀ fileName blobUrl,
      (pageStep (pageRun p0 ops) (PageOp.showDownload fileName blobUrl)).banners.downloadHidden
        = false ∧
      (pageStep (pageRun p0 ops) (PageOp.showDownload fileName blobUrl)).banners.messageHidden
        = true ∧
      (pageStep (pageRun p0 ops) (PageOp.showDownload fileName blobUrl)).modalVisible
        = (pageRun p0 ops).modalVisible) ∧
    ((pageStep (pageRun p0 ops) PageOp.hideAllMessages).banners.messageHidden = true ∧
      (pageStep (pageRun p0 ops) PageOp.hideAllMessages).banners.downloadHidden = true ∧
      (pageStep (pageRun p0 ops) PageOp.hideAllMessages).modalVisible
        = (pageRun p0 ops).modalVisible) ∧
    (∀ url fileName toolName,
      (pageStep (pageRun p0 ops)
        (PageOp.modal (Cmd.open url fileName toolName))).modalVisible = true ∧
      (pageStep (pageRun p0 ops)
        (PageOp.modal (Cmd.open url fileName toolName))).banners = (pageRun p0 ops).banners) :=
  ⟨pageRun_banners_exclusive ops p0 h0, fun _ _ => ⟨rfl, rfl, rfl⟩, fun _ _ => ⟨rfl, rfl, rfl⟩,
    ⟨rfl, rfl, rfl⟩, fun _ _ _ => ⟨rfl, rfl⟩⟩

/-- C12 (amended) at a concrete run from page load: a compress that succeeds,
valid credentials, submit, download. -/
theorem C12_banners_exclusive_witness :
    (pageRun pageLoad [PageOp.compressPdf 5 "PDF re-saved." (Outcome.ok "blob:1"),
        PageOp.modal (Cmd.inputEmail "a@b.co"), PageOp.modal (Cmd.inputPassword "Abcdef1!"),
        PageOp.modal Cmd.submit, PageOp.modal Cmd.confirmDownload]).banners.messageHidden = true ∨
    (pageRun pageLoad [PageOp.compressPdf 5 "PDF re-saved." (Outcome.ok "blob:1"),
        PageOp.modal (Cmd.inputEmail "a@b.co"), PageOp.modal (Cmd.inputPassword "Abcdef1!"),
        PageOp.modal Cmd.submit, PageOp.modal Cmd.confirmDownload]).banners.downloadHidden = true :=
  (C12_banners_exclusive pageLoad [PageOp.compressPdf 5 "PDF re-saved." (Outcome.ok "blob:1"),
        PageOp.modal (Cmd.inputEmail "a@b.co"), PageOp.modal (Cmd.inputPassword "Abcdef1!"),
        PageOp.modal Cmd.submit, PageOp.modal Cmd.confirmDownload] (by decide)).1

/-- C13, the code at the failing input: on the merge page `addFiles` on a
batch with a text file writes the message that names the file and then hides
it again, so no banner is visible after the call, also when the batch holds a
PDF as well; on a single-file tool the same file leaves the error banner
visible. -/
theorem C13_merge_error_hidden :
    ((addFiles (setupMergePage noBanners) [⟨"b.txt", "text/plain"⟩]).banners.messageText
        = "File \"b.txt\" is not a PDF and was skipped." ∧
     (addFiles (setupMergePage noBanners) [⟨"b.txt", "text/plain"⟩]).banners.messageHidden
        = true ∧
     (addFiles (setupMergePage noBanners) [⟨"b.txt", "text/plain"⟩]).selectedFiles = []) ∧
    (addFiles (setupMergePage noBanners)
      [⟨"a.pdf", "application/pdf"⟩, ⟨"b.txt", "text/plain"⟩]).banners.messageHidden = true ∧
    ((addFile compressOptions (setupSingleFileTool compressOptions noBanners)
        ⟨"b.txt", "text/plain"⟩).banners.messageHidden = false ∧
     (addFile compressOptions (setupSingleFileTool compressOptions noBanners)
        ⟨"b.txt", "text/plain"⟩).banners.messageIsError = true ∧
     (addFile compressOptions (setupSingleFileTool compressOptions noBanners)
        ⟨"b.txt", "text/plain"⟩).banners.messageText =
      unsupportedTypeMessage ["application/pdf"] ⟨"b.txt", "text/plain"⟩) :=
  ⟨by decide, by decide, by decide, by decide, rfl⟩

/-- C14: for every merge selection and every batch, `addFiles` leaves the
selection followed by exactly the files of the batch whose type is
`application/pdf`, in batch order. -/
theorem C14_addFiles_appends_pdfs (m : MergePage) (files : List File) :
    (addFiles m files).selectedFiles =
      m.selectedFiles ++ files.filter (fun f => decide (f.type = "application/pdf")) := by
  simp only [addFiles, renderFilePreviews_selectedFiles, foldl_addOneFile_selectedFiles]

/-- C15: for every selection and every index `i` (in particular every valid
one), a drag started on the thumbnail at index `i` and dropped on the same
thumbnail changes nothing: the drop handler returns at once, and the selection,
the preview and the process button are those of before the drag. -/
theorem C15_drop_on_self (m : MergePage) (i : Nat) :
    handleDrop (handleDragStart m i) i (some i) = some (handleDragStart m i) ∧
    (handleDragStart m i).selectedFiles = m.selectedFiles ∧
    (handleDragStart m i).preview = m.preview ∧
    (handleDragStart m i).processDisabled = m.processDisabled ∧
    handleDragEnd (handleDragStart m i) = { m with draggedItem := none } := by
  simp [handleDrop, handleDragStart, handleDragEnd]

end ILovePDF
